import Mathlib

/-!
# Elementary-operation functors of XAD (`BinaryFunctors.hpp`, `UnaryFunctors.hpp`)

A shallow embedding of the functors in `src/XAD/BinaryFunctors.hpp` and
`src/XAD/UnaryFunctors.hpp`.

* The template parameter `Scalar` is a Lean type `S`; the arithmetic operators the
  C++ code applies to it are the type-class operations `+ - * /` and unary `-` of `S`.
* The conversion `Scalar(n)` of an integer literal `n` is the integer cast `((n : Int) : S)`.
* The conversion `Scalar(b)` of a constructor argument `b : T2` is an explicit function
  `conv : T2 → S`; the conversion `Scalar(x)` of a value that already is a `Scalar` is a copy.
* The tests `std::is_same<Scalar, double>` and `std::is_same<Scalar, float>` select a branch
  by the scalar type alone; the embedding passes their outcome as a `ScalarKind`.
* The SSE registers `__m128d` and `__m128` are records of two and four lanes, and the
  intrinsics of `<immintrin.h>` act on the lanes as Intel documents them.
-/

namespace xad

/-! ## SSE registers and intrinsics (`<immintrin.h>`) -/

/-- Register `__m128d`: two double-precision lanes, `lane0` the low one. -/
structure M128d (F : Type) where
  lane0 : F
  lane1 : F
deriving DecidableEq, Repr

/-- Register `__m128`: four single-precision lanes, `lane0` the low one. -/
structure M128 (F : Type) where
  lane0 : F
  lane1 : F
  lane2 : F
  lane3 : F
deriving DecidableEq, Repr

/-- Intrinsic `_mm_set_sd(a)`: `a` goes to the low lane, the upper lane is zeroed. -/
def _mm_set_sd {F : Type} [Zero F] (a : F) : M128d F :=
  { lane0 := a, lane1 := 0 }

/-- Intrinsic `_mm_add_sd(x, y)`: adds the low lanes, copies the upper lane of `x`. -/
def _mm_add_sd {F : Type} [Add F] (x y : M128d F) : M128d F :=
  { lane0 := x.lane0 + y.lane0, lane1 := x.lane1 }

/-- Intrinsic `_mm_cvtsd_f64(x)`: reads the low lane. -/
def _mm_cvtsd_f64 {F : Type} (x : M128d F) : F :=
  x.lane0

/-- Intrinsic `_mm_set_ps(e3, e2, e1, e0)`: `e0` goes to lane 0, `e1` to lane 1,
`e2` to lane 2 and `e3` to lane 3. -/
def _mm_set_ps {F : Type} (e3 e2 e1 e0 : F) : M128 F :=
  { lane0 := e0, lane1 := e1, lane2 := e2, lane3 := e3 }

/-- Intrinsic `_mm_add_ps(x, y)`: adds lane by lane. -/
def _mm_add_ps {F : Type} [Add F] (x y : M128 F) : M128 F :=
  { lane0 := x.lane0 + y.lane0, lane1 := x.lane1 + y.lane1,
    lane2 := x.lane2 + y.lane2, lane3 := x.lane3 + y.lane3 }

/-- Intrinsic `_mm_cvtss_f32(x)`: reads lane 0. -/
def _mm_cvtss_f32 {F : Type} (x : M128 F) : F :=
  x.lane0

/-! ## Scalar-type dispatch -/

/-- Outcome of the tests `std::is_same<Scalar, double>::value` and
`std::is_same<Scalar, float>::value` for the template parameter `Scalar`. -/
inductive ScalarKind where
  | double
  | float
  | other
deriving DecidableEq, Repr

/-! ## `BinaryFunctors.hpp` -/

/-- Method `add_op<Scalar>::operator()`, `BinaryFunctors.hpp` lines 34-53. -/
def add_op.eval {S : Type} [Add S] [Zero S] (kind : ScalarKind) (a b : S) : S :=
  match kind with
  | ScalarKind.double => _mm_cvtsd_f64 (_mm_add_sd (_mm_set_sd a) (_mm_set_sd b))
  | ScalarKind.float =>
      _mm_cvtss_f32 (_mm_add_ps (_mm_set_ps 0 a 0 0) (_mm_set_ps 0 b 0 0))
  | ScalarKind.other => a + b

/-- Method `add_op<Scalar>::derivative_a`: `Scalar(1)`. -/
def add_op.derivative_a {S : Type} [IntCast S] (_a _b : S) : S :=
  ((1 : Int) : S)

/-- Method `add_op<Scalar>::derivative_b`: `Scalar(1)`. -/
def add_op.derivative_b {S : Type} [IntCast S] (_a _b : S) : S :=
  ((1 : Int) : S)

/-- Method `prod_op<Scalar>::operator()`: `a * b`. -/
def prod_op.eval {S : Type} [Mul S] (a b : S) : S :=
  a * b

/-- Method `prod_op<Scalar>::derivative_a`: `b`. -/
def prod_op.derivative_a {S : Type} (_a b : S) : S :=
  b

/-- Method `prod_op<Scalar>::derivative_b`: `a`. -/
def prod_op.derivative_b {S : Type} (a _b : S) : S :=
  a

/-- Method `sub_op<Scalar>::operator()`: `a - b`. -/
def sub_op.eval {S : Type} [Sub S] (a b : S) : S :=
  a - b

/-- Method `sub_op<Scalar>::derivative_a`: `Scalar(1)`. -/
def sub_op.derivative_a {S : Type} [IntCast S] (_a _b : S) : S :=
  ((1 : Int) : S)

/-- Method `sub_op<Scalar>::derivative_b`: `Scalar(-1)`. -/
def sub_op.derivative_b {S : Type} [IntCast S] (_a _b : S) : S :=
  ((-1 : Int) : S)

/-- Method `div_op<Scalar>::operator()`: `a / b`. -/
def div_op.eval {S : Type} [Div S] (a b : S) : S :=
  a / b

/-- Method `div_op<Scalar>::derivative_a`: `Scalar(1) / b`. -/
def div_op.derivative_a {S : Type} [IntCast S] [Div S] (_a b : S) : S :=
  ((1 : Int) : S) / b

/-- Method `div_op<Scalar>::derivative_b`: `-a / (b * b)`, the unary minus applied to `a`. -/
def div_op.derivative_b {S : Type} [Neg S] [Mul S] [Div S] (a b : S) : S :=
  (-a) / (b * b)

/-! ## `UnaryFunctors.hpp` -/

/-- Method `negate_op<Scalar>::operator()`: `-a`. -/
def negate_op.eval {S : Type} [Neg S] (a : S) : S :=
  -a

/-- Method `negate_op<Scalar>::derivative`: `-Scalar(1)`. -/
def negate_op.derivative {S : Type} [IntCast S] [Neg S] (_a : S) : S :=
  -((1 : Int) : S)

/-- Functor `scalar_add_op<Scalar, T2>`: its only member is the captured `b_`. -/
structure scalar_add_op (S : Type) where
  b_ : S

/-- Constructor `scalar_add_op(const T2& b) : b_(Scalar(b))`. -/
def scalar_add_op.ctor {S T2 : Type} (conv : T2 → S) (b : T2) : scalar_add_op S :=
  { b_ := conv b }

/-- Method `scalar_add_op<Scalar, T2>::operator()`, `UnaryFunctors.hpp` lines 44-52. -/
def scalar_add_op.eval {S : Type} [Add S] [Zero S] (kind : ScalarKind)
    (self : scalar_add_op S) (a : S) : S :=
  match kind with
  | ScalarKind.double => _mm_cvtsd_f64 (_mm_add_sd (_mm_set_sd a) (_mm_set_sd self.b_))
  | ScalarKind.float =>
      _mm_cvtss_f32 (_mm_add_ps (_mm_set_ps 0 a 0 0) (_mm_set_ps 0 self.b_ 0 0))
  | ScalarKind.other => a + self.b_

/-- Method `scalar_add_op<Scalar, T2>::derivative`: `Scalar(1)`. -/
def scalar_add_op.derivative {S : Type} [IntCast S] (_self : scalar_add_op S) (_a : S) : S :=
  ((1 : Int) : S)

/-- Functor `scalar_prod_op<Scalar, T2>`: its only member is the captured `b_`. -/
structure scalar_prod_op (S : Type) where
  b_ : S

/-- Constructor `scalar_prod_op(const T2& b) : b_(Scalar(b))`. -/
def scalar_prod_op.ctor {S T2 : Type} (conv : T2 → S) (b : T2) : scalar_prod_op S :=
  { b_ := conv b }

/-- Method `scalar_prod_op<Scalar, T2>::operator()`: `Scalar(a * b_)`. -/
def scalar_prod_op.eval {S : Type} [Mul S] (self : scalar_prod_op S) (a : S) : S :=
  a * self.b_

/-- Method `scalar_prod_op<Scalar, T2>::derivative`: `Scalar(b_)`. -/
def scalar_prod_op.derivative {S : Type} (self : scalar_prod_op S) (_a : S) : S :=
  self.b_

/-- Functor `scalar_sub1_op<Scalar, T2>`: its only member is the captured `b_`. -/
structure scalar_sub1_op (S : Type) where
  b_ : S

/-- Constructor `scalar_sub1_op(const T2& b) : b_(Scalar(b))`. -/
def scalar_sub1_op.ctor {S T2 : Type} (conv : T2 → S) (b : T2) : scalar_sub1_op S :=
  { b_ := conv b }

/-- Method `scalar_sub1_op<Scalar, T2>::operator()`: `b_ - a`. -/
def scalar_sub1_op.eval {S : Type} [Sub S] (self : scalar_sub1_op S) (a : S) : S :=
  self.b_ - a

/-- Method `scalar_sub1_op<Scalar, T2>::derivative`: `Scalar(-1)`. -/
def scalar_sub1_op.derivative {S : Type} [IntCast S] (_self : scalar_sub1_op S) (_a : S) : S :=
  ((-1 : Int) : S)

/-- Functor `scalar_sub2_op<Scalar, T2>`: its only member is the captured `b_`. -/
structure scalar_sub2_op (S : Type) where
  b_ : S

/-- Constructor `scalar_sub2_op(const T2& b) : b_(Scalar(b))`. -/
def scalar_sub2_op.ctor {S T2 : Type} (conv : T2 → S) (b : T2) : scalar_sub2_op S :=
  { b_ := conv b }

/-- Method `scalar_sub2_op<Scalar, T2>::operator()`: `a - Scalar(b_)`. -/
def scalar_sub2_op.eval {S : Type} [Sub S] (self : scalar_sub2_op S) (a : S) : S :=
  a - self.b_

/-- Method `scalar_sub2_op<Scalar, T2>::derivative`: `Scalar(1)`. -/
def scalar_sub2_op.derivative {S : Type} [IntCast S] (_self : scalar_sub2_op S) (_a : S) : S :=
  ((1 : Int) : S)

/-- Functor `scalar_div1_op<Scalar, T2>`: its only member is the captured `b_`. -/
structure scalar_div1_op (S : Type) where
  b_ : S

/-- Constructor `scalar_div1_op(const T2& b) : b_(Scalar(b))`. -/
def scalar_div1_op.ctor {S T2 : Type} (conv : T2 → S) (b : T2) : scalar_div1_op S :=
  { b_ := conv b }

/-- Method `scalar_div1_op<Scalar, T2>::operator()`: `b_ / a`. -/
def scalar_div1_op.eval {S : Type} [Div S] (self : scalar_div1_op S) (a : S) : S :=
  self.b_ / a

/-- Method `scalar_div1_op<Scalar, T2>::derivative`: `-b_ / (a * a)`, the unary minus
applied to `b_`. -/
def scalar_div1_op.derivative {S : Type} [Neg S] [Mul S] [Div S]
    (self : scalar_div1_op S) (a : S) : S :=
  (-self.b_) / (a * a)

/-- Functor `scalar_div2_op<Scalar, T2>`: its only member is the captured `b_`. -/
structure scalar_div2_op (S : Type) where
  b_ : S

/-- Constructor `scalar_div2_op(const T2& b) : b_(Scalar(b))`. -/
def scalar_div2_op.ctor {S T2 : Type} (conv : T2 → S) (b : T2) : scalar_div2_op S :=
  { b_ := conv b }

/-- Method `scalar_div2_op<Scalar, T2>::operator()`: `a / b_`. -/
def scalar_div2_op.eval {S : Type} [Div S] (self : scalar_div2_op S) (a : S) : S :=
  a / self.b_

/-- Method `scalar_div2_op<Scalar, T2>::derivative`: `Scalar(1) / b_`. -/
def scalar_div2_op.derivative {S : Type} [IntCast S] [Div S]
    (self : scalar_div2_op S) (_a : S) : S :=
  ((1 : Int) : S) / self.b_

/-! ## Binary functors: formula table -/

/-- Claim C1: over a field, for every `a` and every `b ≠ 0`, `div_op` evaluates to `a / b`,
`derivative_a` is `1 / b` and `derivative_b` is `-a / (b * b)`; these are the quotients
they name: multiplied back by their divisors they give `a`, `1` and `-a`. -/
theorem div_op_formulas {S : Type} [Field S] (a b : S) (hb : b ≠ 0) :
    div_op.eval a b = a / b ∧
    div_op.derivative_a a b = 1 / b ∧
    div_op.derivative_b a b = -a / (b * b) ∧
    div_op.eval a b * b = a ∧
    div_op.derivative_a a b * b = 1 ∧
    div_op.derivative_b a b * (b * b) = -a := by
  have hbb : b * b ≠ 0 := mul_ne_zero hb hb
  refine ⟨rfl, ?_, rfl, ?_, ?_, ?_⟩
  · simp [div_op.derivative_a]
  · simp [div_op.eval, hb]
  · simp [div_op.derivative_a, hb]
  · simp only [div_op.derivative_b]
    exact div_mul_cancel₀ (-a) hbb

/-- Claim C1, instance: `a = 6`, `b = 2` over the rationals. -/
theorem div_op_formulas_witness :
    (2 : ℚ) ≠ 0 ∧
    (div_op.eval (6 : ℚ) 2 = 6 / 2 ∧
     div_op.derivative_a (6 : ℚ) 2 = 1 / 2 ∧
     div_op.derivative_b (6 : ℚ) 2 = -6 / (2 * 2) ∧
     div_op.eval (6 : ℚ) 2 * 2 = 6 ∧
     div_op.derivative_a (6 : ℚ) 2 * 2 = 1 ∧
     div_op.derivative_b (6 : ℚ) 2 * (2 * 2) = -6) :=
  ⟨by norm_num, div_op_formulas 6 2 (by norm_num)⟩

/-- Claim C2: the single-precision branch of `add_op::operator()` puts `a` and `b` in
lane 2 of their registers and reads lane 0 of the sum, so for every lane type and every
pair of operands it returns `0 + 0`, not `a + b`; with exact arithmetic on the values
`1` and `2` it returns `0` where the direct addition gives `3`. -/
theorem add_op_float_branch_reads_zero_lane :
    (∀ (S : Type) [Add S] [Zero S] (a b : S),
      add_op.eval ScalarKind.float a b = (0 : S) + 0) ∧
    (∀ (S : Type) [Add S] [Zero S] (a b : S),
      (_mm_add_ps (_mm_set_ps 0 a 0 0) (_mm_set_ps 0 b 0 0)).lane2 = a + b) ∧
    add_op.eval ScalarKind.float (1 : ℚ) 2 = 0 ∧
    (1 : ℚ) + 2 = 3 ∧
    add_op.eval ScalarKind.float (1 : ℚ) 2 ≠ (1 : ℚ) + 2 := by
  refine ⟨fun S _ _ a b => rfl, fun S _ _ a b => rfl, ?_, ?_, ?_⟩
  · simp [add_op.eval, _mm_cvtss_f32, _mm_add_ps, _mm_set_ps]
  · norm_num
  · simp [add_op.eval, _mm_cvtss_f32, _mm_add_ps, _mm_set_ps]
    norm_num

/-- Claim C3: the single-precision branch of `scalar_add_op::operator()` puts `a` and the
captured `b_` in lane 2 of their registers and reads lane 0 of the sum, so for every lane
type, every captured constant and every operand it returns `0 + 0`, not `a + b_`; with
exact arithmetic, `k = 3` and `a = 2` it returns `0` where the direct addition gives `5`. -/
theorem scalar_add_op_float_branch_reads_zero_lane :
    (∀ (S T2 : Type) [Add S] [Zero S] (conv : T2 → S) (k : T2) (a : S),
      (scalar_add_op.ctor conv k).eval ScalarKind.float a = (0 : S) + 0) ∧
    (∀ (S T2 : Type) [Add S] [Zero S] (conv : T2 → S) (k : T2) (a : S),
      (_mm_add_ps (_mm_set_ps 0 a 0 0)
        (_mm_set_ps 0 (scalar_add_op.ctor conv k).b_ 0 0)).lane2 = a + conv k) ∧
    (scalar_add_op.ctor (fun q : ℚ => q) 3).eval ScalarKind.float 2 = 0 ∧
    (2 : ℚ) + (scalar_add_op.ctor (fun q : ℚ => q) 3).b_ = 5 ∧
    (scalar_add_op.ctor (fun q : ℚ => q) 3).eval ScalarKind.float 2 ≠
      (2 : ℚ) + (scalar_add_op.ctor (fun q : ℚ => q) 3).b_ := by
  refine ⟨fun S T2 _ _ conv k a => rfl, fun S T2 _ _ conv k a => rfl, ?_, ?_, ?_⟩
  · simp [scalar_add_op.eval, _mm_cvtss_f32, _mm_add_ps, _mm_set_ps]
  · simp only [scalar_add_op.ctor]
    norm_num
  · simp only [scalar_add_op.eval, scalar_add_op.ctor, _mm_cvtss_f32, _mm_add_ps, _mm_set_ps]
    norm_num

/-! ## Scalar-combined functors: reverse division -/

/-- Claim C4: over a field, for every constructor argument `k` (converted once, by `conv`,
into the captured `b_`) and every `a ≠ 0`, `scalar_div1_op(k)` evaluates to `k / a` and its
derivative is `-k / (a * a)`; multiplied back by their divisors these give `k` and `-k`.
With `k = 6` and `a = 2` over the rationals the value is `3` and the derivative is
`-6 / 4 = -3 / 2`. -/
theorem scalar_div1_op_formulas {S T2 : Type} [Field S] (conv : T2 → S) (k : T2) (a : S)
    (ha : a ≠ 0) :
    (scalar_div1_op.ctor conv k).b_ = conv k ∧
    (scalar_div1_op.ctor conv k).eval a = conv k / a ∧
    (scalar_div1_op.ctor conv k).derivative a = -(conv k) / (a * a) ∧
    (scalar_div1_op.ctor conv k).eval a * a = conv k ∧
    (scalar_div1_op.ctor conv k).derivative a * (a * a) = -(conv k) ∧
    (scalar_div1_op.ctor (fun q : ℚ => q) 6).eval 2 = 3 ∧
    (scalar_div1_op.ctor (fun q : ℚ => q) 6).derivative 2 = -6 / 4 ∧
    (scalar_div1_op.ctor (fun q : ℚ => q) 6).derivative 2 = -(3 / 2) := by
  have haa : a * a ≠ 0 := mul_ne_zero ha ha
  refine ⟨rfl, rfl, rfl, ?_, ?_, ?_, ?_, ?_⟩
  · simp only [scalar_div1_op.eval, scalar_div1_op.ctor]
    exact div_mul_cancel₀ (conv k) ha
  · simp only [scalar_div1_op.derivative, scalar_div1_op.ctor]
    exact div_mul_cancel₀ (-(conv k)) haa
  · simp only [scalar_div1_op.eval, scalar_div1_op.ctor]
    norm_num
  · simp only [scalar_div1_op.derivative, scalar_div1_op.ctor]
    norm_num
  · simp only [scalar_div1_op.derivative, scalar_div1_op.ctor]
    norm_num

/-- Claim C4, instance: the integer `6` converted to a rational, at `a = 2`. -/
theorem scalar_div1_op_formulas_witness :
    (2 : ℚ) ≠ 0 ∧
    ((scalar_div1_op.ctor (fun n : ℤ => (n : ℚ)) 6).b_ = ((6 : ℤ) : ℚ) ∧
     (scalar_div1_op.ctor (fun n : ℤ => (n : ℚ)) 6).eval 2 = ((6 : ℤ) : ℚ) / 2 ∧
     (scalar_div1_op.ctor (fun n : ℤ => (n : ℚ)) 6).derivative 2 = -((6 : ℤ) : ℚ) / (2 * 2) ∧
     (scalar_div1_op.ctor (fun n : ℤ => (n : ℚ)) 6).eval 2 * 2 = ((6 : ℤ) : ℚ) ∧
     (scalar_div1_op.ctor (fun n : ℤ => (n : ℚ)) 6).derivative 2 * (2 * 2) = -((6 : ℤ) : ℚ) ∧
     (scalar_div1_op.ctor (fun q : ℚ => q) 6).eval 2 = 3 ∧
     (scalar_div1_op.ctor (fun q : ℚ => q) 6).derivative 2 = -6 / 4 ∧
     (scalar_div1_op.ctor (fun q : ℚ => q) 6).derivative 2 = -(3 / 2)) :=
  ⟨by norm_num, scalar_div1_op_formulas (fun n : ℤ => (n : ℚ)) 6 2 (by norm_num)⟩

/-! ## Analytic derivatives over the reals -/

/-- Claim C5: over the real numbers, for every `a` and every `b ≠ 0` the function
`y ↦ div_op(a, y)` has derivative `div_op::derivative_b(a, b)` at `b`, and for every
captured constant `k` and every `x ≠ 0` the function `t ↦ scalar_div1_op(k)(t)` has
derivative `scalar_div1_op(k).derivative(x)` at `x`. -/
theorem div_derivatives_are_analytic {T2 : Type} (a b : ℝ) (hb : b ≠ 0)
    (conv : T2 → ℝ) (k : T2) (x : ℝ) (hx : x ≠ 0) :
    HasDerivAt (fun y : ℝ => div_op.eval a y) (div_op.derivative_b a b) b ∧
    HasDerivAt (fun t : ℝ => (scalar_div1_op.ctor conv k).eval t)
      ((scalar_div1_op.ctor conv k).derivative x) x := by
  constructor
  · have h := (hasDerivAt_const b a).div (hasDerivAt_id b) hb
    have e : div_op.derivative_b a b = (0 * id b - a * 1) / (id b) ^ 2 := by
      simp only [div_op.derivative_b, id_eq]
      ring
    rw [e]
    exact h
  · have h := (hasDerivAt_const x (conv k)).div (hasDerivAt_id x) hx
    have e : (scalar_div1_op.ctor conv k).derivative x
        = (0 * id x - conv k * 1) / (id x) ^ 2 := by
      simp only [scalar_div1_op.derivative, scalar_div1_op.ctor, id_eq]
      ring
    rw [e]
    exact h

/-- Claim C5, instance: `a = 1`, `b = 2`, `k = 6`, `x = 2`. -/
theorem div_derivatives_are_analytic_witness :
    (2 : ℝ) ≠ 0 ∧
    (HasDerivAt (fun y : ℝ => div_op.eval 1 y) (div_op.derivative_b 1 2) 2 ∧
     HasDerivAt (fun t : ℝ => (scalar_div1_op.ctor (fun r : ℝ => r) 6).eval t)
       ((scalar_div1_op.ctor (fun r : ℝ => r) 6).derivative 2) 2) :=
  ⟨by norm_num,
   div_derivatives_are_analytic 1 2 (by norm_num) (fun r : ℝ => r) 6 2 (by norm_num)⟩

/-! ## Addition, multiplication, subtraction, negation -/

/-- Claim C6: for every `a`, `b`, `add_op` evaluates to `a + b` on the generic branch and on
the double-precision branch (low lane of `_mm_add_sd`), and on every scalar type in which
`Scalar(1)` is the unit, `derivative_a` and `derivative_b` are `1` whatever `a` and `b` are. -/
theorem add_op_formulas {S : Type} [AddGroupWithOne S] (a b : S) :
    add_op.eval ScalarKind.other a b = a + b ∧
    add_op.eval ScalarKind.double a b = a + b ∧
    add_op.derivative_a a b = 1 ∧
    add_op.derivative_b a b = 1 :=
  ⟨rfl, rfl, Int.cast_one, Int.cast_one⟩

/-- Claim C7: for every `a`, `b`, `prod_op` evaluates to `a * b`, `derivative_a` is the
other operand `b` and `derivative_b` is `a`. -/
theorem prod_op_formulas {S : Type} [Mul S] (a b : S) :
    prod_op.eval a b = a * b ∧
    prod_op.derivative_a a b = b ∧
    prod_op.derivative_b a b = a :=
  ⟨rfl, rfl, rfl⟩

/-- Claim C8: for every `a`, `b`, `sub_op` evaluates to `a - b`, `derivative_a` is `1` and
`derivative_b` is `-1`, whatever the operands are. -/
theorem sub_op_formulas {S : Type} [AddGroupWithOne S] (a b : S) :
    sub_op.eval a b = a - b ∧
    sub_op.derivative_a a b = 1 ∧
    sub_op.derivative_b a b = -1 := by
  refine ⟨rfl, Int.cast_one, ?_⟩
  simp [sub_op.derivative_b]

/-- Claim C9: for every `a`, `negate_op` evaluates to `-a` and its derivative is `-1`,
whatever `a` is. -/
theorem negate_op_formulas {S : Type} [AddGroupWithOne S] (a : S) :
    negate_op.eval a = -a ∧
    negate_op.derivative a = -1 := by
  refine ⟨rfl, ?_⟩
  simp [negate_op.derivative]

/-- Claim C10: for every constructor argument `k` (converted once, by `conv`, into the
captured `b_`) and every `a`, `scalar_add_op(k)` evaluates to `a + k` on the generic branch
and on the double-precision branch, and its derivative is `1`; with `k = 3` and `a = 2`
over the rationals the value is `5` on both branches and the derivative is `1`. -/
theorem scalar_add_op_formulas {S T2 : Type} [AddGroupWithOne S] (conv : T2 → S) (k : T2)
    (a : S) :
    (scalar_add_op.ctor conv k).b_ = conv k ∧
    (scalar_add_op.ctor conv k).eval ScalarKind.other a = a + conv k ∧
    (scalar_add_op.ctor conv k).eval ScalarKind.double a = a + conv k ∧
    (scalar_add_op.ctor conv k).derivative a = 1 ∧
    (scalar_add_op.ctor (fun q : ℚ => q) 3).eval ScalarKind.other 2 = 5 ∧
    (scalar_add_op.ctor (fun q : ℚ => q) 3).eval ScalarKind.double 2 = 5 ∧
    (scalar_add_op.ctor (fun q : ℚ => q) 3).derivative 2 = 1 := by
  refine ⟨rfl, rfl, rfl, Int.cast_one, ?_, ?_, Int.cast_one⟩
  · simp only [scalar_add_op.eval, scalar_add_op.ctor]
    norm_num
  · simp only [scalar_add_op.eval, scalar_add_op.ctor, _mm_cvtsd_f64, _mm_add_sd, _mm_set_sd]
    norm_num

/-! ## Scalar-combined functors: multiplication, subtraction, division by the constant -/

/-- Claim C11: for every constructor argument `k` (converted once, by `conv`, into the
captured `b_`) and every `a`, `scalar_prod_op(k)` evaluates to `a * k` and its derivative is
`k`, the same for every `a`. -/
theorem scalar_prod_op_formulas {S T2 : Type} [Mul S] (conv : T2 → S) (k : T2) (a : S) :
    (scalar_prod_op.ctor conv k).b_ = conv k ∧
    (scalar_prod_op.ctor conv k).eval a = a * conv k ∧
    (scalar_prod_op.ctor conv k).derivative a = conv k ∧
    (∀ a2 : S, (scalar_prod_op.ctor conv k).derivative a2 =
      (scalar_prod_op.ctor conv k).derivative a) :=
  ⟨rfl, rfl, rfl, fun _ => rfl⟩

/-- Claim C12: for every constructor argument `k` (converted once, by `conv`, into the
captured `b_`) and every `a`, `scalar_sub1_op(k)` evaluates to `k - a` with derivative `-1`,
and `scalar_sub2_op(k)` evaluates to `a - k` with derivative `1`; the operand subtracted in
`scalar_sub2_op` is the stored constant itself. -/
theorem scalar_sub_op_formulas {S T2 : Type} [AddGroupWithOne S] (conv : T2 → S) (k : T2)
    (a : S) :
    (scalar_sub1_op.ctor conv k).b_ = conv k ∧
    (scalar_sub1_op.ctor conv k).eval a = conv k - a ∧
    (scalar_sub1_op.ctor conv k).derivative a = -1 ∧
    (scalar_sub2_op.ctor conv k).b_ = conv k ∧
    (scalar_sub2_op.ctor conv k).eval a = a - conv k ∧
    (scalar_sub2_op.ctor conv k).eval a = a - (scalar_sub2_op.ctor conv k).b_ ∧
    (scalar_sub2_op.ctor conv k).derivative a = 1 := by
  refine ⟨rfl, rfl, ?_, rfl, rfl, rfl, Int.cast_one⟩
  simp [scalar_sub1_op.derivative]

/-- Claim C13: over a field, for every constructor argument `k` whose captured value is not
zero and every `a`, `scalar_div2_op(k)` evaluates to `a / k` and its derivative is `1 / k`,
the same for every `a`; multiplied back by `k` these give `a` and `1`. -/
theorem scalar_div2_op_formulas {S T2 : Type} [Field S] (conv : T2 → S) (k : T2) (a : S)
    (hk : conv k ≠ 0) :
    (scalar_div2_op.ctor conv k).b_ = conv k ∧
    (scalar_div2_op.ctor conv k).eval a = a / conv k ∧
    (scalar_div2_op.ctor conv k).derivative a = 1 / conv k ∧
    (∀ a2 : S, (scalar_div2_op.ctor conv k).derivative a2 =
      (scalar_div2_op.ctor conv k).derivative a) ∧
    (scalar_div2_op.ctor conv k).eval a * conv k = a ∧
    (scalar_div2_op.ctor conv k).derivative a * conv k = 1 := by
  refine ⟨rfl, rfl, ?_, fun _ => rfl, ?_, ?_⟩
  · simp [scalar_div2_op.derivative, scalar_div2_op.ctor]
  · simp only [scalar_div2_op.eval, scalar_div2_op.ctor]
    exact div_mul_cancel₀ a hk
  · simp [scalar_div2_op.derivative, scalar_div2_op.ctor, hk]

/-- Claim C13, instance: `k = 4`, `a = 6` over the rationals. -/
theorem scalar_div2_op_formulas_witness :
    (fun q : ℚ => q) 4 ≠ 0 ∧
    ((scalar_div2_op.ctor (fun q : ℚ => q) 4).b_ = (fun q : ℚ => q) 4 ∧
     (scalar_div2_op.ctor (fun q : ℚ => q) 4).eval 6 = 6 / (fun q : ℚ => q) 4 ∧
     (scalar_div2_op.ctor (fun q : ℚ => q) 4).derivative 6 = 1 / (fun q : ℚ => q) 4 ∧
     (∀ a2 : ℚ, (scalar_div2_op.ctor (fun q : ℚ => q) 4).derivative a2 =
       (scalar_div2_op.ctor (fun q : ℚ => q) 4).derivative 6) ∧
     (scalar_div2_op.ctor (fun q : ℚ => q) 4).eval 6 * (fun q : ℚ => q) 4 = 6 ∧
     (scalar_div2_op.ctor (fun q : ℚ => q) 4).derivative 6 * (fun q : ℚ => q) 4 = 1) :=
  ⟨by norm_num, scalar_div2_op_formulas (fun q : ℚ => q) 4 6 (by norm_num)⟩

/-! ## Scalar-combined functors as specialised binary functors -/

/-- Claim C14: every scalar-combined functor is the matching binary functor with one operand
fixed to the captured constant, value and derivative alike, for every scalar type with the
operators involved, every `k` and every `a`: `scalar_add_op` is `add_op(a, k)` (on the
generic path, and on each of the other two branches as well), `scalar_prod_op` is
`prod_op(a, k)`, `scalar_sub1_op` is `sub_op(k, a)` with `derivative_b`, `scalar_sub2_op` is
`sub_op(a, k)`, `scalar_div1_op` is `div_op(k, a)` with `derivative_b`, and `scalar_div2_op`
is `div_op(a, k)`. -/
theorem scalar_ops_specialise_binary_ops {S T2 : Type} [Add S] [Zero S] [Sub S] [Mul S]
    [Div S] [Neg S] [IntCast S] (conv : T2 → S) (k : T2) (a : S) :
    (scalar_add_op.ctor conv k).eval ScalarKind.other a
      = add_op.eval ScalarKind.other a (conv k) ∧
    (∀ kind : ScalarKind,
      (scalar_add_op.ctor conv k).eval kind a = add_op.eval kind a (conv k)) ∧
    (scalar_add_op.ctor conv k).derivative a = add_op.derivative_a a (conv k) ∧
    (scalar_prod_op.ctor conv k).eval a = prod_op.eval a (conv k) ∧
    (scalar_prod_op.ctor conv k).derivative a = prod_op.derivative_a a (conv k) ∧
    (scalar_sub1_op.ctor conv k).eval a = sub_op.eval (conv k) a ∧
    (scalar_sub1_op.ctor conv k).derivative a = sub_op.derivative_b (conv k) a ∧
    (scalar_sub2_op.ctor conv k).eval a = sub_op.eval a (conv k) ∧
    (scalar_sub2_op.ctor conv k).derivative a = sub_op.derivative_a a (conv k) ∧
    (scalar_div1_op.ctor conv k).eval a = div_op.eval (conv k) a ∧
    (scalar_div1_op.ctor conv k).derivative a = div_op.derivative_b (conv k) a ∧
    (scalar_div2_op.ctor conv k).eval a = div_op.eval a (conv k) ∧
    (scalar_div2_op.ctor conv k).derivative a = div_op.derivative_a a (conv k) := by
  refine ⟨rfl, ?_, rfl, rfl, rfl, rfl, rfl, rfl, rfl, rfl, rfl, rfl, rfl⟩
  intro kind
  cases kind <;> rfl

/-! ## Central differences, first-order expansion, operand swap -/

/-- Central differences away from the single-precision branch of `add_op`: in exact
rational arithmetic the central difference quotient in the first operand agrees with
`derivative_a` to within every positive tolerance, for every `a`, `b` and every step
`h ≠ 0`: for `add_op` on its generic and double-precision branches, `sub_op`, `prod_op`,
`div_op` with a divisor `d ≠ 0`, and for `negate_op` with its `derivative`. -/
theorem central_difference_matches_derivative (a b d h tol : ℚ) (hd : d ≠ 0) (hh : h ≠ 0)
    (htol : 0 < tol) :
    |add_op.derivative_a a b -
      (add_op.eval ScalarKind.other (a + h) b - add_op.eval ScalarKind.other (a - h) b)
        / (2 * h)| < tol ∧
    |add_op.derivative_a a b -
      (add_op.eval ScalarKind.double (a + h) b - add_op.eval ScalarKind.double (a - h) b)
        / (2 * h)| < tol ∧
    |sub_op.derivative_a a b -
      (sub_op.eval (a + h) b - sub_op.eval (a - h) b) / (2 * h)| < tol ∧
    |prod_op.derivative_a a b -
      (prod_op.eval (a + h) b - prod_op.eval (a - h) b) / (2 * h)| < tol ∧
    |div_op.derivative_a a d -
      (div_op.eval (a + h) d - div_op.eval (a - h) d) / (2 * h)| < tol ∧
    |negate_op.derivative a -
      (negate_op.eval (a + h) - negate_op.eval (a - h)) / (2 * h)| < tol := by
  have e1 : add_op.derivative_a a b -
      (add_op.eval ScalarKind.other (a + h) b - add_op.eval ScalarKind.other (a - h) b)
        / (2 * h) = 0 := by
    simp only [add_op.derivative_a, add_op.eval, Int.cast_one]
    field_simp
    ring
  have e2 : add_op.derivative_a a b -
      (add_op.eval ScalarKind.double (a + h) b - add_op.eval ScalarKind.double (a - h) b)
        / (2 * h) = 0 := by
    simp only [add_op.derivative_a, add_op.eval, _mm_cvtsd_f64, _mm_add_sd, _mm_set_sd,
      Int.cast_one]
    field_simp
    ring
  have e3 : sub_op.derivative_a a b -
      (sub_op.eval (a + h) b - sub_op.eval (a - h) b) / (2 * h) = 0 := by
    simp only [sub_op.derivative_a, sub_op.eval, Int.cast_one]
    field_simp
    ring
  have e4 : prod_op.derivative_a a b -
      (prod_op.eval (a + h) b - prod_op.eval (a - h) b) / (2 * h) = 0 := by
    simp only [prod_op.derivative_a, prod_op.eval]
    field_simp
    ring
  have e5 : div_op.derivative_a a d -
      (div_op.eval (a + h) d - div_op.eval (a - h) d) / (2 * h) = 0 := by
    simp only [div_op.derivative_a, div_op.eval, Int.cast_one]
    field_simp
    ring
  have e6 : negate_op.derivative a -
      (negate_op.eval (a + h) - negate_op.eval (a - h)) / (2 * h) = 0 := by
    simp only [negate_op.derivative, negate_op.eval, Int.cast_one]
    field_simp
    ring
  rw [e1, e2, e3, e4, e5, e6, abs_zero]
  exact ⟨htol, htol, htol, htol, htol, htol⟩

/-- Central differences away from the single-precision branch, instance: `a = 3`, `b = 5`,
divisor `2`, step `1 / 10`, tolerance `1 / 1000`. -/
theorem central_difference_matches_derivative_witness :
    (2 : ℚ) ≠ 0 ∧ (1 / 10 : ℚ) ≠ 0 ∧ (0 : ℚ) < 1 / 1000 ∧
    (|add_op.derivative_a (3 : ℚ) 5 -
      (add_op.eval ScalarKind.other ((3 : ℚ) + 1 / 10) 5 -
        add_op.eval ScalarKind.other ((3 : ℚ) - 1 / 10) 5) / (2 * (1 / 10))| < 1 / 1000 ∧
     |add_op.derivative_a (3 : ℚ) 5 -
      (add_op.eval ScalarKind.double ((3 : ℚ) + 1 / 10) 5 -
        add_op.eval ScalarKind.double ((3 : ℚ) - 1 / 10) 5) / (2 * (1 / 10))| < 1 / 1000 ∧
     |sub_op.derivative_a (3 : ℚ) 5 -
      (sub_op.eval ((3 : ℚ) + 1 / 10) 5 - sub_op.eval ((3 : ℚ) - 1 / 10) 5)
        / (2 * (1 / 10))| < 1 / 1000 ∧
     |prod_op.derivative_a (3 : ℚ) 5 -
      (prod_op.eval ((3 : ℚ) + 1 / 10) 5 - prod_op.eval ((3 : ℚ) - 1 / 10) 5)
        / (2 * (1 / 10))| < 1 / 1000 ∧
     |div_op.derivative_a (3 : ℚ) 2 -
      (div_op.eval ((3 : ℚ) + 1 / 10) 2 - div_op.eval ((3 : ℚ) - 1 / 10) 2)
        / (2 * (1 / 10))| < 1 / 1000 ∧
     |negate_op.derivative (3 : ℚ) -
      (negate_op.eval ((3 : ℚ) + 1 / 10) - negate_op.eval ((3 : ℚ) - 1 / 10))
        / (2 * (1 / 10))| < 1 / 1000) :=
  ⟨by norm_num, by norm_num, by norm_num,
   central_difference_matches_derivative 3 5 2 (1 / 10) (1 / 1000)
     (by norm_num) (by norm_num) (by norm_num)⟩

/-- Claim C15: on the single-precision branch of `add_op` the derivative consistency check
fails. The branch returns `0 + 0` whatever its operands are, so the numerator of the
central difference quotient in the first operand is `0` for every `a`, `b`, `h`, while
`derivative_a` is `1`; at `a = 3`, `b = 5`, `h = 1 / 2` the error is exactly `1`, which is
not below the tolerance `1 / 1000`, nor below any tolerance up to `1`. -/
theorem add_op_float_branch_central_difference_error :
    (∀ a b h : ℚ,
      add_op.eval ScalarKind.float (a + h) b - add_op.eval ScalarKind.float (a - h) b = 0 ∧
      add_op.derivative_a a b = 1) ∧
    |add_op.derivative_a (3 : ℚ) 5 -
      (add_op.eval ScalarKind.float ((3 : ℚ) + 1 / 2) 5 -
        add_op.eval ScalarKind.float ((3 : ℚ) - 1 / 2) 5) / (2 * (1 / 2))| = 1 ∧
    ¬ (|add_op.derivative_a (3 : ℚ) 5 -
      (add_op.eval ScalarKind.float ((3 : ℚ) + 1 / 2) 5 -
        add_op.eval ScalarKind.float ((3 : ℚ) - 1 / 2) 5) / (2 * (1 / 2))| < 1 / 1000) ∧
    (∀ tol : ℚ, tol ≤ 1 →
      ¬ (|add_op.derivative_a (3 : ℚ) 5 -
        (add_op.eval ScalarKind.float ((3 : ℚ) + 1 / 2) 5 -
          add_op.eval ScalarKind.float ((3 : ℚ) - 1 / 2) 5) / (2 * (1 / 2))| < tol)) := by
  have num : ∀ a b h : ℚ,
      add_op.eval ScalarKind.float (a + h) b - add_op.eval ScalarKind.float (a - h) b = 0 := by
    intro a b h
    simp only [add_op.eval, _mm_cvtss_f32, _mm_add_ps, _mm_set_ps]
    ring
  have one : ∀ a b : ℚ, add_op.derivative_a a b = 1 := fun _ _ => Int.cast_one
  have err : |add_op.derivative_a (3 : ℚ) 5 -
      (add_op.eval ScalarKind.float ((3 : ℚ) + 1 / 2) 5 -
        add_op.eval ScalarKind.float ((3 : ℚ) - 1 / 2) 5) / (2 * (1 / 2))| = 1 := by
    rw [num 3 5 (1 / 2), one 3 5]
    norm_num
  refine ⟨fun a b h => ⟨num a b h, one a b⟩, err, ?_, ?_⟩
  · rw [err]
    norm_num
  · intro tol htol
    rw [err]
    exact not_lt.mpr htol

/-- Claim C17: over a commutative ring, on the generic path, the first-order expansion with
the functors' own derivatives is exact for `add_op` and `sub_op`, and for `prod_op` it
leaves exactly the remainder `da * db`, for every `a`, `b`, `da`, `db`. -/
theorem first_order_expansion {S : Type} [CommRing S] (a b da db : S) :
    add_op.eval ScalarKind.other (a + da) (b + db)
      = add_op.eval ScalarKind.other a b + add_op.derivative_a a b * da
        + add_op.derivative_b a b * db ∧
    sub_op.eval (a + da) (b + db)
      = sub_op.eval a b + sub_op.derivative_a a b * da + sub_op.derivative_b a b * db ∧
    prod_op.eval (a + da) (b + db) - prod_op.eval a b - prod_op.derivative_a a b * da
      - prod_op.derivative_b a b * db = da * db := by
  refine ⟨?_, ?_, ?_⟩
  · simp only [add_op.eval, add_op.derivative_a, add_op.derivative_b, Int.cast_one]
    ring
  · simp only [sub_op.eval, sub_op.derivative_a, sub_op.derivative_b, Int.cast_one,
      Int.cast_neg]
    ring
  · simp only [prod_op.eval, prod_op.derivative_a, prod_op.derivative_b]
    ring

/-- Claim C18: over a commutative ring, on the generic path, swapping the operands of
`add_op` and of `prod_op` keeps the value and swaps the two partials, and swapping the
operands of `sub_op` negates the value and turns `derivative_a` into minus `derivative_b`,
for every `a`, `b`. -/
theorem operand_swap {S : Type} [CommRing S] (a b : S) :
    add_op.eval ScalarKind.other a b = add_op.eval ScalarKind.other b a ∧
    add_op.derivative_a a b = add_op.derivative_b b a ∧
    prod_op.eval a b = prod_op.eval b a ∧
    prod_op.derivative_a a b = prod_op.derivative_b b a ∧
    sub_op.eval a b = -sub_op.eval b a ∧
    sub_op.derivative_a a b = -sub_op.derivative_b b a := by
  refine ⟨?_, rfl, ?_, rfl, ?_, ?_⟩
  · simp only [add_op.eval]
    exact add_comm a b
  · simp only [prod_op.eval]
    exact mul_comm a b
  · simp only [sub_op.eval]
    exact (neg_sub b a).symm
  · simp only [sub_op.derivative_a, sub_op.derivative_b, Int.cast_one, Int.cast_neg, neg_neg]

end xad
